import Mathlib

/-!
Verification development for the Gripp3r helper skill
(src/grip/skill-nodejs/lambda/index.js).

The skill is a request-routing and session-state engine: an ordered list of
(canHandle, handle) pairs over inbound requests, a per-session attribute bag
(endpointId, duration, speed, token), and a timer subsystem correlating
asynchronous gadget events by token.  Handlers are embedded as pure functions
from the session and the request data to a response together with the
(possibly mutated) session.  JavaScript values that flow through the session
bag and the payloads are modelled by the small inductive `JsVal`, covering
exactly the value shapes this program produces: strings, integers, NaN
(from parseInt on non-numeric input), the empty array (from the idiom
`x || []`) and undefined.
-/

/-- The JavaScript values this skill stores and compares. -/
inductive JsVal where
  | undef
  | str (s : String)
  | num (n : Int)
  | nan
  | emptyArr
deriving DecidableEq, Repr

/-- JavaScript truthiness for the values of `JsVal`.  An empty array is
truthy; undefined, NaN, the empty string and 0 are falsy. -/
def JsVal.truthy : JsVal → Bool
  | .undef => false
  | .str s => s != ""
  | .num n => n != 0
  | .nan => false
  | .emptyArr => true

/-- The JavaScript idiom `v || d`: the left operand when truthy, else `d`. -/
def jsOr (v d : JsVal) : JsVal := if v.truthy then v else d

/-- String coercion of a `JsVal`, as done by template literals and by the
`+` operator on strings (`String([])` is the empty string). -/
def JsVal.toJsString : JsVal → String
  | .undef => "undefined"
  | .str s => s
  | .num n => toString n
  | .nan => "NaN"
  | .emptyArr => ""

/-- String coercion of a possibly-undefined string, as done by template
literals and string concatenation (undefined prints as "undefined"). -/
def jsStrOf : Option String → String
  | none => "undefined"
  | some s => s

/-- Truthiness test used by `if (!command)` on a slot value that is either
a string or undefined. -/
def isFalsyStr : Option String → Bool
  | none => true
  | some s => s == ""

/-- Digit-run accumulator for `parseIntJs`: consumes the maximal leading run
of decimal digits; `seen` records whether at least one digit was read. -/
def parseIntCore : List Char → Nat → Bool → Option Nat
  | [], acc, seen => if seen then some acc else none
  | c :: rest, acc, seen =>
    if c.isDigit then parseIntCore rest (acc * 10 + (c.toNat - 48)) true
    else if seen then some acc else none

/-- JavaScript `parseInt` on a string, for the decimal inputs this skill
receives: skip leading whitespace, read an optional sign and then the maximal
run of decimal digits; `none` models NaN (no digits found).  Hexadecimal
prefixes are not modelled; slot values here are plain decimal numerals. -/
def parseIntJs (s : String) : Option Int :=
  let cs := s.data.dropWhile Char.isWhitespace
  match cs with
  | '-' :: rest => (parseIntCore rest 0 false).map (fun n => -(n : Int))
  | '+' :: rest => (parseIntCore rest 0 false).map (fun n => (n : Int))
  | _ => (parseIntCore cs 0 false).map (fun n => (n : Int))

/-- JavaScript `parseInt` applied to a value that may be undefined:
`parseInt(undefined)` coerces to the string "undefined" and yields NaN. -/
def parseIntJsOpt : Option String → Option Int
  | none => none
  | some s => parseIntJs s

/-- Lift a possibly-absent request field (string or undefined) to `JsVal`,
for strict comparison against a stored session attribute. -/
def jsOfOptStr : Option String → JsVal
  | none => JsVal.undef
  | some s => JsVal.str s

/-- Session attribute bag: the four keys this skill reads and writes
(`endpointId`, `duration`, `speed`, `token`), each initially absent
(JavaScript undefined). -/
structure Session where
  endpointId : JsVal := JsVal.undef
  duration : JsVal := JsVal.undef
  speed : JsVal := JsVal.undef
  token : JsVal := JsVal.undef
deriving DecidableEq, Repr

/-- A connected gadget endpoint as returned by endpoint discovery. -/
structure Endpoint where
  endpointId : String
deriving DecidableEq, Repr

/-- Payload of an inbound custom event.  `distance` is the Proximity field
(a numeric string, absent for other events); `hasFire` and `hasMove` model
the presence of the keys tested by `in` for Sentry events; `speechOut` is
the Speech field. -/
structure EventPayload where
  distance : Option String := none
  hasFire : Bool := false
  hasMove : Bool := false
  speechOut : Option String := none
deriving DecidableEq, Repr

/-- One inbound custom event: `header.name`, an optional `endpoint` object
(absent models a malformed event), and the payload. -/
structure CustomEvent where
  headerName : String
  endpoint : Option Endpoint
  payload : EventPayload
deriving DecidableEq, Repr

/-- Payload of an outbound control directive, one shape per `type`
discriminator exactly as built by the handlers.  The constructor fixes the
`type` field; `speed` is the raw session value or the string default. -/
inductive ControlPayload where
  | bringP (command : String) (speed : JsVal)
  | takeP (command : String) (speed : JsVal)
  | commandP (command : String) (speed : JsVal)
  | moveP (direction : Option String) (duration : String) (speed : JsVal)
deriving DecidableEq, Repr

/-- The `type` discriminator carried by a control payload. -/
def ControlPayload.typeField : ControlPayload → String
  | .bringP _ _ => "bring"
  | .takeP _ _ => "take"
  | .commandP _ _ => "command"
  | .moveP _ _ _ => "move"

/-- An outbound directive: either a custom control directive built by
`Util.build(endpointId, NAMESPACE, NAME_CONTROL, payload)` or a
`CustomInterfaceController.StartEventHandler` timer directive built by
`Util.buildStartEventHandler(token, durationMs, \x7b\x7d)`. -/
inductive Directive where
  | control (endpointId : JsVal) (nspace : String) (dname : String)
      (payload : ControlPayload)
  | startEventHandler (token : String) (durationMs : Nat)
deriving DecidableEq, Repr

/-- A response as assembled by the response builder: optional output speech,
the directives added, and the `shouldEndSession` flag (`none` when
`withShouldEndSession` was not called). -/
structure Response where
  speech : Option String := none
  directives : List Directive := []
  shouldEndSession : Option Bool := none
deriving DecidableEq, Repr

/-- The background-music audio tag `BG_MUSIC` appended to spoken output. -/
def BG_MUSIC : String :=
  "<audio src=\"soundbank://soundlibrary/ui/gameshow/amzn_ui_sfx_gameshow_waiting_loop_30s_01\"/>"

/-- The namespace of the custom control directive. -/
def NAMESPACE : String := "Custom.Mindstorms.Gadget"

/-- The name of the custom control directive. -/
def NAME_CONTROL : String := "control"

/-- Intent slots: an association list from slot name to recognized value;
an absent name models an undefined slot value. -/
def Slots := List (String × String)

/-- The model of `Alexa.getSlotValue`: the slot value, or undefined. -/
def getSlotValue (slots : Slots) (slotName : String) : Option String :=
  (List.find? (fun p => p.fst == slotName) slots).map (fun p => p.snd)

/-- The apology spoken by the launch handler when no gadget is connected. -/
def noGadgetSpeech : String :=
  "I couldn\x27t find an EV3 Brick connected to this Echo device. Please check to make sure your EV3 Brick is connected, and try again."

/-- The welcome message spoken by the launch handler. -/
def welcomeSpeech : String := "Welcome, Gripper Helper is here for your command"

/-- LaunchRequestHandler.handle: if discovery returned no endpoints
(`apiResponse.endpoints || []` empty), speak the apology and stop; otherwise
store the first endpoint id (`endpointId || []`), set duration to 10, store
the request id as the event-handler token, and start a 60000 ms event
handler carrying that token. -/
def launchHandle (sess : Session) (endpoints : Option (List Endpoint))
    (requestId : String) : Response × Session :=
  match endpoints.getD [] with
  | [] => ({ speech := some noGadgetSpeech }, sess)
  | e :: _ =>
    let endpointIdVal := jsOr (JsVal.str e.endpointId) JsVal.emptyArr
    let s1 := { sess with endpointId := endpointIdVal }
    let s2 := { s1 with duration := JsVal.num 10 }
    let s3 := { s2 with token := JsVal.str requestId }
    ({ speech := some (welcomeSpeech ++ BG_MUSIC),
       directives := [Directive.startEventHandler requestId 60000] }, s3)

/-- ComeIntentHandler.handle: the body is stubbed in the source; the
directive-building code is commented out, so it only speaks a debug phrase
and neither reads the session nor adds a directive. -/
def comeHandle (sess : Session) : Response × Session :=
  ({ speech := some ("Hello, finally hit") }, sess)

/-- The re-prompt response returned by the slot-validating handlers when the
required slot is falsy: speak a repeat request and keep the session open. -/
def repromptResponse : Response :=
  { speech := some ("Can you repeat that?"), shouldEndSession := some false }

/-- BringIntentHandler.handle: validate the `Bring` slot (falsy re-prompts),
read endpointId (`|| []`) and speed (`|| "50"`) from the session, and return
the confirmation speech plus a control directive with type `bring`. -/
def bringHandle (sess : Session) (slots : Slots) : Response × Session :=
  match getSlotValue slots ("Bring") with
  | none => (repromptResponse, sess)
  | some c =>
    if c = "" then (repromptResponse, sess)
    else
      let endpointId := jsOr sess.endpointId JsVal.emptyArr
      let speed := jsOr sess.speed (JsVal.str ("50"))
      let directive := Directive.control endpointId NAMESPACE NAME_CONTROL
        (ControlPayload.bringP c speed)
      ({ speech := some ("bring me stuff" ++ BG_MUSIC),
         directives := [directive] }, sess)

/-- TakeIntentHandler.handle: same shape as the bring handler with slot
`Take` and payload type `take`. -/
def takeHandle (sess : Session) (slots : Slots) : Response × Session :=
  match getSlotValue slots ("Take") with
  | none => (repromptResponse, sess)
  | some c =>
    if c = "" then (repromptResponse, sess)
    else
      let endpointId := jsOr sess.endpointId JsVal.emptyArr
      let speed := jsOr sess.speed (JsVal.str ("50"))
      let directive := Directive.control endpointId NAMESPACE NAME_CONTROL
        (ControlPayload.takeP c speed)
      ({ speech := some ("take this" ++ BG_MUSIC),
         directives := [directive] }, sess)

/-- SetSpeedIntentHandler.handle: read the `Speed` slot, compute
`Math.max(1, Math.min(100, parseInt(speed)))` — NaN when the slot does not
parse, since min and max propagate NaN — store the result under `speed`,
and speak the stored value.  There is no validation branch. -/
def setSpeedHandle (sess : Session) (slots : Slots) : Response × Session :=
  let speedSlot := getSlotValue slots ("Speed")
  let clamped : JsVal :=
    match parseIntJsOpt speedSlot with
    | none => JsVal.nan
    | some n => JsVal.num (max 1 (min 100 n))
  let s1 := { sess with speed := clamped }
  ({ speech := some ("speed set to " ++ clamped.toJsString ++ " percent."
      ++ BG_MUSIC) }, s1)

/-- The `Duration` slot of a MoveIntent with the falsy-default applied:
`Alexa.getSlotValue(request, "Duration") || "2"`. -/
def durationOrDefault (slots : Slots) : String :=
  match getSlotValue slots ("Duration") with
  | none => "2"
  | some d => if d = "" then "2" else d

/-- MoveIntentHandler.handle: read the `Direction` slot without validating
it, default `Duration` to "2" (`|| "2"`), read speed (`|| "50"`) and
endpointId (`|| []`) from the session, and return the confirmation speech
plus a control directive with type `move`.  An absent direction flows into
the payload and the speech as undefined. -/
def moveHandle (sess : Session) (slots : Slots) : Response × Session :=
  let direction := getSlotValue slots ("Direction")
  let duration := durationOrDefault slots
  let speed := jsOr sess.speed (JsVal.str ("50"))
  let endpointId := jsOr sess.endpointId JsVal.emptyArr
  let directive := Directive.control endpointId NAMESPACE NAME_CONTROL
    (ControlPayload.moveP direction duration speed)
  let speech :=
    if direction = some ("brake") then "Applying brake"
    else jsStrOf direction ++ " " ++ duration ++ " seconds at "
      ++ speed.toJsString ++ " percent speed"
  ({ speech := some (speech ++ BG_MUSIC), directives := [directive] }, sess)

/-- SetCommandIntentHandler.handle: validate the `Command` slot (falsy
re-prompts), read endpointId and speed from the session, and return speech
plus a control directive with type `command`; the sentry commands replace
the confirmation speech with the empty string. -/
def setCommandHandle (sess : Session) (slots : Slots) : Response × Session :=
  match getSlotValue slots ("Command") with
  | none => (repromptResponse, sess)
  | some c =>
    if c = "" then (repromptResponse, sess)
    else
      let endpointId := jsOr sess.endpointId JsVal.emptyArr
      let speed := jsOr sess.speed (JsVal.str ("50"))
      let directive := Directive.control endpointId NAMESPACE NAME_CONTROL
        (ControlPayload.commandP c speed)
      let speechOutput :=
        if c = "sentry" ∨ c = "sentry mode" then ""
        else "command " ++ c ++ " activated"
      ({ speech := some (speechOutput ++ BG_MUSIC),
         directives := [directive] }, sess)

/-- EventsReceivedRequestHandler.canHandle, after the request-type test has
already matched.  The source reads `request.events[0]` before any check, so
an absent events array throws; a token mismatch returns false before the
event endpoint is touched; with a matching token, `customEvent.endpoint
.endpointId` throws when the events array is empty or the first event has
no endpoint object.  `Except.error` models a thrown TypeError. -/
def eventsCanHandle (sess : Session) (reqToken : Option String)
    (events : Option (List CustomEvent)) : Except String Bool :=
  match events with
  | none => Except.error ("TypeError")
  | some evs =>
    if sess.token ≠ jsOfOptStr reqToken then Except.ok false
    else
      match evs.head? with
      | none => Except.error ("TypeError")
      | some ev =>
        match ev.endpoint with
        | none => Except.error ("TypeError")
        | some endp =>
          Except.ok (JsVal.str endp.endpointId = sess.endpointId)

/-- EventsReceivedRequestHandler.handle on the first received event (the
source reads `request.events[0]`, defined whenever canHandle returned true).
A near Proximity reading returns early with a question and keeps the session
open; otherwise the local `speechOutput` variable is only assigned on the
recognized branches, and the final speak coerces an unassigned variable to
the string "undefined" before appending the audio tag. -/
def eventsHandle (sess : Session) (ev : CustomEvent) : Response × Session :=
  let payload := ev.payload
  if ev.headerName == "Proximity" &&
      (match parseIntJsOpt payload.distance with
       | some d => decide (d < 10)
       | none => false) then
    ({ speech := some ("Intruder detected! What would you like to do?"),
       shouldEndSession := some false }, sess)
  else
    let speechOutput : Option String :=
      if ev.headerName = "Proximity" then none
      else if ev.headerName = "Sentry" then
        if payload.hasFire then some ("Threat eliminated")
        else if payload.hasMove then
          some ("I cowarded to the threats, and now gone in hiding")
        else none
      else if ev.headerName = "Speech" then payload.speechOut
      else some ("Event not recognized. Awaiting new command.")
    ({ speech := some (jsStrOf speechOutput ++ BG_MUSIC) }, sess)

/-- ExpiredRequestHandler.handle: always store the fresh request id as the
new token, read `duration || 0`, and either decrement, restart a 60000 ms
event handler and announce the remaining count, or end the session with the
goodbye message when the budget is exhausted. -/
def expiredHandle (sess : Session) (requestId : String) : Response × Session :=
  let s1 := { sess with token := JsVal.str requestId }
  let durationVal := jsOr s1.duration (JsVal.num 0)
  let duration : Int :=
    match durationVal with
    | JsVal.num n => n
    | _ => 0
  if duration > 0 then
    let d1 := duration - 1
    let s2 := { s1 with duration := JsVal.num d1 }
    ({ speech := some (toString d1 ++ " minutes remaining." ++ BG_MUSIC),
       directives := [Directive.startEventHandler requestId 60000] }, s2)
  else
    ({ speech := some ("Skill duration expired. Goodbye."),
       shouldEndSession := some true }, s1)

/-- An inbound request as delivered to `exports.handler`.  The launch
variant carries the endpoint-discovery result (the external collaborator
consulted only by that handler); the events variant carries the raw
`request.token` and `request.events` fields, either possibly absent. -/
inductive Request where
  | launch (endpoints : Option (List Endpoint)) (requestId : String)
  | intentReq (intentName : String) (slots : Slots)
  | eventsReceived (reqToken : Option String)
      (events : Option (List CustomEvent))
  | expired (requestId : String)
  | sessionEnded

/-- Modelled from the spec: the common.js handlers (Help, CancelAndStop,
SessionEnded, IntentReflector and the error handler) are not under src/.
Per the spec, the reflector fallback echoes the unrecognized request and
does not mutate the session. -/
def reflectorFallback (sess : Session) (intentName : String) :
    Response × Session :=
  ({ speech := some ("You just triggered " ++ intentName) }, sess)

/-- Modelled from the spec: an event or expiry bearing a non-matching token
or endpoint must be ignored — silently dropped, not errored: no spoken
output, no directive, no session mutation.  This is the outcome when
EventsReceivedRequestHandler.canHandle rejects the event and no later
handler matches the request. -/
def droppedEventResponse (sess : Session) : Response × Session :=
  ({}, sess)

/-- Modelled from the spec: the SessionEndedRequestHandler in common.js
returns an empty response and mutates nothing. -/
def sessionEndedResponse (sess : Session) : Response × Session :=
  ({}, sess)

/-- The registered dispatcher (`exports.handler`): handlers are tried in
registration order — Launch, Come, Take, Bring, EventsReceived, Expired,
then the common.js handlers.  The request kinds are disjoint, so the
ordered scan reduces to this match.  SetSpeedIntentHandler,
MoveIntentHandler and SetCommandIntentHandler are defined in the source but
never passed to addRequestHandlers, so those intents fall through to the
reflector.  `Except.error` models a predicate throwing before any handler
is selected. -/
def dispatch (sess : Session) (req : Request) :
    Except String (Response × Session) :=
  match req with
  | Request.launch eps rid => Except.ok (launchHandle sess eps rid)
  | Request.intentReq iname slots =>
    if iname = "ComeIntent" then Except.ok (comeHandle sess)
    else if iname = "TakeIntent" then Except.ok (takeHandle sess slots)
    else if iname = "BringIntent" then Except.ok (bringHandle sess slots)
    else Except.ok (reflectorFallback sess iname)
  | Request.eventsReceived tok evs =>
    match eventsCanHandle sess tok evs with
    | Except.error e => Except.error e
    | Except.ok true =>
      match evs with
      | some (ev :: _) => Except.ok (eventsHandle sess ev)
      | _ => Except.ok (droppedEventResponse sess)
    | Except.ok false => Except.ok (droppedEventResponse sess)
  | Request.expired rid => Except.ok (expiredHandle sess rid)
  | Request.sessionEnded => Except.ok (sessionEndedResponse sess)

/-!
Shared lemmas about the handlers, used by several claim theorems below.
-/

theorem bringHandle_session_eq (sess : Session) (slots : Slots) :
    (bringHandle sess slots).2 = sess := by
  unfold bringHandle
  cases hb : getSlotValue slots ("Bring") with
  | none => rfl
  | some c =>
    by_cases hc : c = "" <;> simp [hc]

theorem takeHandle_session_eq (sess : Session) (slots : Slots) :
    (takeHandle sess slots).2 = sess := by
  unfold takeHandle
  cases hb : getSlotValue slots ("Take") with
  | none => rfl
  | some c =>
    by_cases hc : c = "" <;> simp [hc]

theorem setCommandHandle_session_eq (sess : Session) (slots : Slots) :
    (setCommandHandle sess slots).2 = sess := by
  unfold setCommandHandle
  cases hb : getSlotValue slots ("Command") with
  | none => rfl
  | some c =>
    by_cases hc : c = "" <;> simp [hc]

/-- Claim C7: a LaunchRequest whose endpoint discovery returns zero
connected endpoints speaks the apology and produces no directive, no
shouldEndSession flag and no session-attribute write. -/
theorem claim_C7_launch_no_gadget (sess : Session)
    (endpoints : Option (List Endpoint)) (requestId : String)
    (h : endpoints.getD [] = []) :
    launchHandle sess endpoints requestId =
      ({ speech := some noGadgetSpeech, directives := [],
         shouldEndSession := none }, sess) := by
  unfold launchHandle
  rw [h]

/-- Claim C7 witness: the empty discovery result at a concrete request. -/
theorem claim_C7_witness :
    (some ([] : List Endpoint)).getD [] = [] ∧
    launchHandle {} (some []) ("R1") =
      ({ speech := some noGadgetSpeech, directives := [],
         shouldEndSession := none }, {}) :=
  ⟨rfl, claim_C7_launch_no_gadget {} (some []) ("R1") rfl⟩

/-- Claim C8 counterexample: the claim promises that the first discovered
endpoint id is always stored, but an endpoint whose id is the empty string
is falsy, so `endpointId || []` stores an empty array instead of the id. -/
theorem claim_C8_counterexample :
    (launchHandle {} (some [{ endpointId := "" }]) ("R1")).2.endpointId
      ≠ JsVal.str "" := by
  decide

/-- Claim C8 (amended): a LaunchRequest whose discovery returns at least
one endpoint with a non-empty id stores that id, sets duration to 10,
stores the request id as the token, and starts a 60000 ms event handler
carrying that token. -/
theorem claim_C8_launch_with_gadget (sess : Session) (e : Endpoint)
    (rest : List Endpoint) (requestId : String) (h : e.endpointId ≠ "") :
    launchHandle sess (some (e :: rest)) requestId =
      ({ speech := some (welcomeSpeech ++ BG_MUSIC),
         directives := [Directive.startEventHandler requestId 60000],
         shouldEndSession := none },
       { sess with endpointId := JsVal.str e.endpointId,
                   duration := JsVal.num 10,
                   token := JsVal.str requestId }) := by
  unfold launchHandle
  simp [Option.getD, jsOr, JsVal.truthy, h]

/-- Claim C8 witness: launch with the single endpoint E1. -/
theorem claim_C8_witness :
    ("E1" : String) ≠ "" ∧
    launchHandle {} (some [{ endpointId := "E1" }]) ("R1") =
      ({ speech := some (welcomeSpeech ++ BG_MUSIC),
         directives := [Directive.startEventHandler ("R1") 60000],
         shouldEndSession := none },
       { endpointId := JsVal.str "E1", duration := JsVal.num 10,
         token := JsVal.str "R1" }) :=
  ⟨by decide,
   claim_C8_launch_with_gadget {} { endpointId := "E1" } [] ("R1")
     (by decide)⟩

/-- Claim C2 counterexample: a Speed slot that does not parse as a number
(parseInt yields NaN) is not clamped into [1,100]; the handler stores NaN,
so the claimed bound fails for the raw input "fast". -/
theorem claim_C2_counterexample :
    ¬ ∃ n : Int, (setSpeedHandle {} [(("Speed"), ("fast"))]).2.speed
      = JsVal.num n ∧ 1 ≤ n ∧ n ≤ 100 := by
  intro h
  rcases h with ⟨n, hn, _⟩
  have hnan : (setSpeedHandle {} [(("Speed"), ("fast"))]).2.speed
      = JsVal.nan := by decide
  rw [hnan] at hn
  exact JsVal.noConfusion hn

/-- Claim C2 (amended): for a SetSpeedIntent request whose Speed slot is
present and parses to an integer, the stored speed is the parse clamped to
the inclusive range [1,100], hence always within bounds; a slot that does
not parse stores NaN instead of being clamped or rejected. -/
theorem claim_C2_speed_clamped (sess : Session) (slots : Slots) (s : String)
    (n : Int) (hslot : getSlotValue slots ("Speed") = some s)
    (hparse : parseIntJs s = some n) :
    (setSpeedHandle sess slots).2
      = { sess with speed := JsVal.num (max 1 (min 100 n)) } ∧
    1 ≤ max 1 (min 100 n) ∧ max 1 (min 100 n) ≤ 100 := by
  refine ⟨?_, le_max_left 1 (min 100 n), ?_⟩
  · unfold setSpeedHandle
    simp [hslot, parseIntJsOpt, hparse]
  · have h1 : min 100 n ≤ 100 := min_le_left 100 n
    exact max_le (by norm_num) h1

/-- Claim C2 witness: the clamping law at the three quoted inputs, obtained
from the amended theorem at concrete slot values. -/
theorem claim_C2_witness :
    (setSpeedHandle {} [(("Speed"), ("-5"))]).2
      = { speed := JsVal.num (max 1 (min 100 (-5))) } ∧
    (setSpeedHandle {} [(("Speed"), ("500"))]).2
      = { speed := JsVal.num (max 1 (min 100 500)) } ∧
    (setSpeedHandle {} [(("Speed"), ("42"))]).2
      = { speed := JsVal.num (max 1 (min 100 42)) } :=
  ⟨(claim_C2_speed_clamped {} [(("Speed"), ("-5"))] ("-5") (-5) rfl rfl).1,
   (claim_C2_speed_clamped {} [(("Speed"), ("500"))] ("500") 500 rfl rfl).1,
   (claim_C2_speed_clamped {} [(("Speed"), ("42"))] ("42") 42 rfl rfl).1⟩

/-- Claim C3: on a timer-expiry request the fresh request id is stored as
the new token; with an exhausted budget (duration 0) the session is ended
with no new timer directive, and with a positive budget the stored budget
is decremented, a new 60000 ms event handler carrying the fresh token is
started, the decremented count is spoken, and shouldEndSession is not set. -/
theorem claim_C3_expiry_budget (sess : Session) (requestId : String)
    (d : Int) (hd : sess.duration = JsVal.num d) :
    (d = 0 →
      expiredHandle sess requestId =
        ({ speech := some ("Skill duration expired. Goodbye."),
           directives := [], shouldEndSession := some true },
         { sess with token := JsVal.str requestId })) ∧
    (0 < d →
      expiredHandle sess requestId =
        ({ speech := some (toString (d - 1) ++ " minutes remaining."
             ++ BG_MUSIC),
           directives := [Directive.startEventHandler requestId 60000],
           shouldEndSession := none },
         { sess with token := JsVal.str requestId,
                     duration := JsVal.num (d - 1) })) := by
  constructor
  · intro h0
    subst h0
    unfold expiredHandle
    simp [hd, jsOr, JsVal.truthy]
  · intro hpos
    have hne : d ≠ 0 := ne_of_gt hpos
    unfold expiredHandle
    simp [hd, jsOr, JsVal.truthy, hne, hpos]

/-- Claim C3 witness: expiry at budget 0 ends the session, expiry at budget
3 decrements to 2 and restarts the timer, by the theorem at those inputs. -/
theorem claim_C3_witness :
    expiredHandle { duration := JsVal.num 0 } ("R2") =
      ({ speech := some ("Skill duration expired. Goodbye."),
         directives := [], shouldEndSession := some true },
       { duration := JsVal.num 0, token := JsVal.str "R2" }) ∧
    expiredHandle { duration := JsVal.num 3 } ("R2") =
      ({ speech := some (toString ((3 : Int) - 1) ++ " minutes remaining."
           ++ BG_MUSIC),
         directives := [Directive.startEventHandler ("R2") 60000],
         shouldEndSession := none },
       { duration := JsVal.num 2, token := JsVal.str "R2" }) :=
  ⟨(claim_C3_expiry_budget { duration := JsVal.num 0 } ("R2") 0 rfl).1 rfl,
   (claim_C3_expiry_budget { duration := JsVal.num 3 } ("R2") 3 rfl).2
     (by norm_num)⟩

theorem eventsCanHandle_mismatch (sess : Session) (tok : Option String)
    (ev : CustomEvent) (rest : List CustomEvent) (endp : Endpoint)
    (hev : ev.endpoint = some endp)
    (hmis : jsOfOptStr tok ≠ sess.token
      ∨ JsVal.str endp.endpointId ≠ sess.endpointId) :
    eventsCanHandle sess tok (some (ev :: rest)) = Except.ok false := by
  unfold eventsCanHandle
  by_cases htok : sess.token = jsOfOptStr tok
  · have hend : ¬ (JsVal.str endp.endpointId = sess.endpointId) := by
      rcases hmis with h | h
      · exact absurd htok.symm h
      · exact h
    simp [htok, hev, hend]
  · have htok2 : sess.token ≠ jsOfOptStr tok := htok
    simp [htok2]

/-- Claim C1: an EventsReceived request whose token does not match the
stored session token, or whose first event names an endpoint different from
the stored one, is rejected by the canHandle predicate and silently
dropped by the dispatcher: no spoken output, no directive, no
shouldEndSession flag, and the session is returned unchanged. -/
theorem claim_C1_stale_event_dropped (sess : Session) (tok : Option String)
    (ev : CustomEvent) (rest : List CustomEvent) (endp : Endpoint)
    (hev : ev.endpoint = some endp)
    (hmis : jsOfOptStr tok ≠ sess.token
      ∨ JsVal.str endp.endpointId ≠ sess.endpointId) :
    dispatch sess (Request.eventsReceived tok (some (ev :: rest))) =
      Except.ok
        ({ speech := none, directives := [], shouldEndSession := none },
         sess) := by
  have hcan := eventsCanHandle_mismatch sess tok ev rest endp hev hmis
  simp [dispatch, hcan, droppedEventResponse]

/-- Claim C1 witness: a concrete session holding token T and endpoint E1,
receiving an event with the stale token X. -/
theorem claim_C1_witness :
    dispatch { endpointId := JsVal.str "E1", token := JsVal.str "T" }
      (Request.eventsReceived (some ("X"))
        (some [{ headerName := "Proximity",
                 endpoint := some { endpointId := "E1" },
                 payload := {} }])) =
      Except.ok
        ({ speech := none, directives := [], shouldEndSession := none },
         { endpointId := JsVal.str "E1", token := JsVal.str "T" }) :=
  claim_C1_stale_event_dropped
    { endpointId := JsVal.str "E1", token := JsVal.str "T" }
    (some ("X"))
    { headerName := "Proximity", endpoint := some { endpointId := "E1" },
      payload := {} }
    [] { endpointId := "E1" } rfl (Or.inl (by decide))

/-- Claim C4 counterexample: the EventsReceived predicate can throw.  With
a session token T, a request bearing the matching token T and an empty
events array, the source dereferences `customEvent.endpoint` on undefined
and raises a TypeError instead of returning a Boolean. -/
theorem claim_C4_counterexample :
    ¬ ∃ b : Bool, eventsCanHandle { token := JsVal.str "T" } (some ("T"))
      (some []) = Except.ok b := by
  intro h
  rcases h with ⟨b, hb⟩
  have herr : eventsCanHandle { token := JsVal.str "T" } (some ("T"))
      (some []) = Except.error ("TypeError") := rfl
  rw [herr] at hb
  exact Except.noConfusion hb

/-- Claim C4 (amended): the EventsReceived predicate evaluates to a Boolean
without throwing whenever the events array is present and either the token
mismatches (rejected before the event is dereferenced) or the first event
exists and carries an endpoint object.  It throws when the events array is
absent, or when the token matches but the array is empty or the first event
lacks an endpoint.  All other predicates only compare the request type and
never throw. -/
theorem claim_C4_predicate_total (sess : Session) (tok : Option String)
    (l : List CustomEvent)
    (h : sess.token ≠ jsOfOptStr tok
      ∨ ∃ ev rest endp, l = ev :: rest ∧ ev.endpoint = some endp) :
    ∃ b : Bool, eventsCanHandle sess tok (some l) = Except.ok b := by
  unfold eventsCanHandle
  by_cases htok : sess.token = jsOfOptStr tok
  · rcases h with h | ⟨ev, rest, endp, hl, hev⟩
    · exact absurd htok h
    · subst hl
      simp [htok, hev]
  · have htok2 : sess.token ≠ jsOfOptStr tok := htok
    simp [htok2]

/-- Claim C4 witness: with an empty session (undefined token) and a request
token X the token check fails first, so the predicate safely returns a
Boolean even though the events array is empty. -/
theorem claim_C4_witness :
    ∃ b : Bool, eventsCanHandle {} (some ("X")) (some []) = Except.ok b :=
  claim_C4_predicate_total {} (some ("X")) [] (Or.inl (by decide))

/-- Claim C5 counterexample: MoveIntent does not validate its Direction
slot.  With no slots at all, the handler does not re-prompt: it issues a
move directive whose direction is undefined (and speaks an "undefined"
confirmation) instead of asking the user to repeat. -/
theorem claim_C5_counterexample :
    (moveHandle {} []).1.directives
      = [Directive.control JsVal.emptyArr NAMESPACE NAME_CONTROL
          (ControlPayload.moveP none ("2") (JsVal.str ("50")))] ∧
    (moveHandle {} []).1.speech ≠ repromptResponse.speech := by
  constructor
  · rfl
  · decide

/-- Claim C5 (amended): only the Bring, Take and SetCommand handlers
validate their required slot; when it is falsy (absent or empty) they
respond with the re-prompt, keep the session open, issue no directive and
mutate nothing.  The Move and SetSpeed handlers perform no such check. -/
theorem claim_C5_missing_slot_reprompt (sess : Session) (slots : Slots) :
    (isFalsyStr (getSlotValue slots ("Bring")) = true →
      bringHandle sess slots = (repromptResponse, sess)) ∧
    (isFalsyStr (getSlotValue slots ("Take")) = true →
      takeHandle sess slots = (repromptResponse, sess)) ∧
    (isFalsyStr (getSlotValue slots ("Command")) = true →
      setCommandHandle sess slots = (repromptResponse, sess)) := by
  refine ⟨?_, ?_, ?_⟩ <;> intro h
  · unfold bringHandle
    cases hb : getSlotValue slots ("Bring") with
    | none => rfl
    | some c =>
      rw [hb] at h
      simp [isFalsyStr] at h
      simp [h]
  · unfold takeHandle
    cases hb : getSlotValue slots ("Take") with
    | none => rfl
    | some c =>
      rw [hb] at h
      simp [isFalsyStr] at h
      simp [h]
  · unfold setCommandHandle
    cases hb : getSlotValue slots ("Command") with
    | none => rfl
    | some c =>
      rw [hb] at h
      simp [isFalsyStr] at h
      simp [h]

/-- Claim C5 witness: the three validating handlers at a request with no
slots, each by the amended theorem. -/
theorem claim_C5_witness :
    bringHandle {} [] = (repromptResponse, {}) ∧
    takeHandle {} [] = (repromptResponse, {}) ∧
    setCommandHandle {} [] = (repromptResponse, {}) :=
  ⟨(claim_C5_missing_slot_reprompt {} []).1 rfl,
   (claim_C5_missing_slot_reprompt {} []).2.1 rfl,
   (claim_C5_missing_slot_reprompt {} []).2.2 rfl⟩

/-- Claim C6 counterexample: the Come handler is stubbed.  On a ComeIntent
it speaks a debug phrase and issues no directive at all, contradicting the
claim that every recognized command intent returns a typed directive. -/
theorem claim_C6_counterexample :
    (comeHandle {}).1.directives = [] ∧
    (comeHandle {}).1.speech = some ("Hello, finally hit") :=
  ⟨rfl, rfl⟩

/-- Claim C6 (amended): the bring, take, command and move handlers, given
their required slot, read endpointId (`|| []`) and speed (`|| "50"`) from
the session and return confirmation speech plus one control directive whose
payload carries the matching type discriminator and fields; the come
handler is stubbed and returns no directive. -/
theorem claim_C6_typed_directives (sess : Session) (slots : Slots)
    (c : String) (hc : c ≠ "") :
    (getSlotValue slots ("Bring") = some c →
      bringHandle sess slots =
        ({ speech := some ("bring me stuff" ++ BG_MUSIC),
           directives := [Directive.control
             (jsOr sess.endpointId JsVal.emptyArr) NAMESPACE NAME_CONTROL
             (ControlPayload.bringP c (jsOr sess.speed (JsVal.str ("50"))))],
           shouldEndSession := none }, sess)) ∧
    (getSlotValue slots ("Take") = some c →
      takeHandle sess slots =
        ({ speech := some ("take this" ++ BG_MUSIC),
           directives := [Directive.control
             (jsOr sess.endpointId JsVal.emptyArr) NAMESPACE NAME_CONTROL
             (ControlPayload.takeP c (jsOr sess.speed (JsVal.str ("50"))))],
           shouldEndSession := none }, sess)) ∧
    (getSlotValue slots ("Command") = some c →
      setCommandHandle sess slots =
        ({ speech := some ((if c = "sentry" ∨ c = "sentry mode" then ""
             else "command " ++ c ++ " activated") ++ BG_MUSIC),
           directives := [Directive.control
             (jsOr sess.endpointId JsVal.emptyArr) NAMESPACE NAME_CONTROL
             (ControlPayload.commandP c
               (jsOr sess.speed (JsVal.str ("50"))))],
           shouldEndSession := none }, sess)) ∧
    (getSlotValue slots ("Direction") = some c →
      moveHandle sess slots =
        ({ speech := some ((if c = "brake" then "Applying brake"
             else c ++ " " ++ durationOrDefault slots ++ " seconds at "
               ++ (jsOr sess.speed (JsVal.str ("50"))).toJsString
               ++ " percent speed") ++ BG_MUSIC),
           directives := [Directive.control
             (jsOr sess.endpointId JsVal.emptyArr) NAMESPACE NAME_CONTROL
             (ControlPayload.moveP (some c) (durationOrDefault slots)
               (jsOr sess.speed (JsVal.str ("50"))))],
           shouldEndSession := none }, sess)) ∧
    (ControlPayload.bringP c (jsOr sess.speed
      (JsVal.str ("50")))).typeField = "bring" ∧
    (ControlPayload.takeP c (jsOr sess.speed
      (JsVal.str ("50")))).typeField = "take" ∧
    (ControlPayload.commandP c (jsOr sess.speed
      (JsVal.str ("50")))).typeField = "command" ∧
    (ControlPayload.moveP (some c) (durationOrDefault slots)
      (jsOr sess.speed (JsVal.str ("50")))).typeField = "move" := by
  refine ⟨?_, ?_, ?_, ?_, rfl, rfl, rfl, rfl⟩ <;> intro h
  · unfold bringHandle
    simp [h, hc]
  · unfold takeHandle
    simp [h, hc]
  · unfold setCommandHandle
    simp [h, hc]
  · unfold moveHandle
    by_cases hbrake : c = "brake" <;> simp [h, hbrake, jsStrOf]

/-- Claim C6 witness: each directive-producing handler at a concrete
session (endpoint E1, stored speed 70) and a concrete slot value. -/
theorem claim_C6_witness :
    bringHandle { endpointId := JsVal.str "E1", speed := JsVal.num 70 }
        [(("Bring"), ("ball"))] =
      ({ speech := some ("bring me stuff" ++ BG_MUSIC),
         directives := [Directive.control (JsVal.str "E1") NAMESPACE
           NAME_CONTROL (ControlPayload.bringP ("ball") (JsVal.num 70))],
         shouldEndSession := none },
       { endpointId := JsVal.str "E1", speed := JsVal.num 70 }) ∧
    moveHandle { endpointId := JsVal.str "E1", speed := JsVal.num 70 }
        [(("Direction"), ("forward")), (("Duration"), ("3"))] =
      ({ speech := some ("forward 3 seconds at 70 percent speed"
           ++ BG_MUSIC),
         directives := [Directive.control (JsVal.str "E1") NAMESPACE
           NAME_CONTROL (ControlPayload.moveP (some ("forward")) ("3")
             (JsVal.num 70))],
         shouldEndSession := none },
       { endpointId := JsVal.str "E1", speed := JsVal.num 70 }) := by
  constructor
  · have h := (claim_C6_typed_directives
      { endpointId := JsVal.str "E1", speed := JsVal.num 70 }
      [(("Bring"), ("ball"))] ("ball") (by decide)).1 rfl
    simpa using h
  · have h := (claim_C6_typed_directives
      { endpointId := JsVal.str "E1", speed := JsVal.num 70 }
      [(("Direction"), ("forward")), (("Duration"), ("3"))] ("forward")
      (by decide)).2.2.2.1 rfl
    simpa using h

/-- Claim C9: issuing the same intent twice against an unchanged session
yields directive lists that are equal in payload shape and content; every
intent handler's directive construction is a deterministic function of the
slots and the session, and the directive-producing handlers do not mutate
the session. -/
theorem claim_C9_idempotent_directives (sess : Session) (slots : Slots) :
    (bringHandle (bringHandle sess slots).2 slots).1.directives
      = (bringHandle sess slots).1.directives ∧
    (takeHandle (takeHandle sess slots).2 slots).1.directives
      = (takeHandle sess slots).1.directives ∧
    (setCommandHandle (setCommandHandle sess slots).2 slots).1.directives
      = (setCommandHandle sess slots).1.directives ∧
    (moveHandle (moveHandle sess slots).2 slots).1.directives
      = (moveHandle sess slots).1.directives ∧
    (comeHandle (comeHandle sess).2).1.directives
      = (comeHandle sess).1.directives ∧
    (setSpeedHandle (setSpeedHandle sess slots).2 slots).1.directives
      = (setSpeedHandle sess slots).1.directives := by
  refine ⟨?_, ?_, ?_, rfl, rfl, rfl⟩
  · rw [bringHandle_session_eq]
  · rw [takeHandle_session_eq]
  · rw [setCommandHandle_session_eq]

/-- Claim C10: a validated Proximity event with distance at least 10, or a
Sentry event carrying neither a fire nor a move key, leaves the local
speech variable unassigned; the response speaks the undefined value coerced
to the text "undefined" followed by the background-music tag, with no
directive and no session mutation. -/
theorem claim_C10_undefined_speech (sess : Session) (ev : CustomEvent)
    (h : (ev.headerName = "Proximity" ∧
        ∃ d : Int, parseIntJsOpt ev.payload.distance = some d ∧ 10 ≤ d)
      ∨ (ev.headerName = "Sentry" ∧ ev.payload.hasFire = false
        ∧ ev.payload.hasMove = false)) :
    eventsHandle sess ev =
      ({ speech := some ("undefined" ++ BG_MUSIC), directives := [],
         shouldEndSession := none }, sess) := by
  unfold eventsHandle
  rcases h with ⟨hname, d, hd, hge⟩ | ⟨hname, hfire, hmove⟩
  · have hlt : ¬ (d < 10) := not_lt.mpr hge
    simp [hname, hd, hlt, jsStrOf]
  · simp [hname, hfire, hmove, jsStrOf]

/-- Claim C10 witness: a far Proximity reading (distance 15) and a Sentry
event with an empty payload, each by the theorem at a concrete event. -/
theorem claim_C10_witness :
    eventsHandle {}
        { headerName := "Proximity", endpoint := some { endpointId := "E1" },
          payload := { distance := some ("15") } } =
      ({ speech := some ("undefined" ++ BG_MUSIC), directives := [],
         shouldEndSession := none }, {}) ∧
    eventsHandle {}
        { headerName := "Sentry", endpoint := some { endpointId := "E1" },
          payload := {} } =
      ({ speech := some ("undefined" ++ BG_MUSIC), directives := [],
         shouldEndSession := none }, {}) :=
  ⟨claim_C10_undefined_speech {}
      { headerName := "Proximity", endpoint := some { endpointId := "E1" },
        payload := { distance := some ("15") } }
      (Or.inl ⟨rfl, 15, rfl, by norm_num⟩),
   claim_C10_undefined_speech {}
      { headerName := "Sentry", endpoint := some { endpointId := "E1" },
        payload := {} }
      (Or.inr ⟨rfl, rfl, rfl⟩)⟩
